import Mathlib

/-!
Verification development for the openclaw stability plugin.

A shallow embedding of the plugin's scoring, state-tracking and ranking
engine, translated from the JavaScript sources:

  * `src/lib/detectors.js`   — behavioral detectors (temporal mismatch,
    quality decay, recursive meta discussion);
  * `src/lib/entropy.js`     — composite entropy scoring, sustained-entropy
    tracking, and the loop detector (DJB2 hash over tool outputs);
  * `src/lib/governance.js`  — the investigation rate limiter;
  * `src/lib/vectorStore.js` — growth-vector relevance scoring, the
    feedback adjustment, and the checksum-cached file loader.

Conventions of the embedding:
  * JavaScript numbers are modelled as rationals (`ℚ`); the only decimal
    constants involved are exactly representable and the claims checked
    here never hinge on binary floating-point rounding.
  * JavaScript strings are Lean `String`s; `text.toLowerCase()` is
    `lowerStr` (per-character `Char.toLower`, which agrees on the ASCII
    texts involved), and `a.includes(b)` is `containsSub`.
  * The idiom `x || default` of the config lookups is modelled by the
    `jsOr*` helpers, which keep the JavaScript falsiness of `0`, `""`,
    `null`/`undefined` (here `Option.none`).
  * Mutable instance fields become explicit state values passed in and
    returned; `Date.now()` becomes an explicit `now : ℚ` argument
    (milliseconds).
  * The novel-concept regex (a `|`-alternation of literal strings, used
    with the `gi` flags) is modelled by `regexCountCI`, a left-to-right
    scan that at each position tries the alternatives in order, counts a
    match and skips past it — the semantics of `String.match` with a
    global case-insensitive literal alternation.
-/

/-! ### Generic JavaScript-flavoured helpers -/

/-- `a.includes b` on character lists: `needle` occurs contiguously in `hay`. -/
def containsSub (hay needle : List Char) : Bool :=
  hay.tails.any (fun t => needle.isPrefixOf t)

/-- `text.toLowerCase()` as a character list (ASCII-faithful). -/
def lowerStr (s : String) : List Char :=
  s.data.map Char.toLower

/-- Check whether the lowercased `text` contains the pattern string `p`
(the sources call `textLower.includes(p)` with `p` taken verbatim). -/
def hasPat (textLower : List Char) (p : String) : Bool :=
  containsSub textLower p.data

/-- `cfg.field || default` for a numeric config field: `undefined`, `null`
and `0` all fall through to the default. -/
def jsOrQ (x : Option ℚ) (d : ℚ) : ℚ :=
  match x with
  | none => d
  | some v => if v = 0 then d else v

/-- `cfg.field || default` for a natural-number config field. -/
def jsOrNat (x : Option ℕ) (d : ℕ) : ℕ :=
  match x with
  | none => d
  | some v => if v = 0 then d else v

/-- JavaScript truthiness of an optional boolean flag: only `true` is truthy
(`undefined` and `false` are falsy). -/
def jsTruthy (x : Option Bool) : Bool :=
  x = some true

/-- JavaScript truthiness of an optional string: `undefined` and `""` are falsy. -/
def jsStrTruthy (x : Option String) : Bool :=
  match x with
  | none => false
  | some s => s ≠ ""

/-- `a || b` on optional strings (the empty string falls through). -/
def jsStrOr (a b : Option String) : Option String :=
  match a with
  | none => b
  | some s => if s = "" then b else some s

/-- `Math.round`: round half toward positive infinity. -/
def jsRound (x : ℚ) : ℤ :=
  ⌊x + 1/2⌋

/-- Dropping a prefix by a predicate never lengthens a list. -/
theorem length_dropWhile_le' (p : Char → Bool) (l : List Char) :
    (l.dropWhile p).length ≤ l.length := by
  induction l with
  | nil => simp [List.dropWhile]
  | cons a l ih =>
    simp only [List.dropWhile]
    split
    · exact Nat.le_succ_of_le ih
    · exact Nat.le_refl _

/-- Split a character list at maximal runs of separator characters, keeping
the empty boundary fields exactly like `str.split(/sep+/)` does in
JavaScript (a leading or trailing separator run yields an empty field, and
the empty string yields one empty field). -/
def jsSplitAux (sep : Char → Bool) : List Char → List Char → List (List Char)
  | [], acc => [acc.reverse]
  | c :: cs, acc =>
    if sep c then
      acc.reverse :: jsSplitAux sep (cs.dropWhile sep) []
    else
      jsSplitAux sep cs (c :: acc)
termination_by l _ => l.length
decreasing_by
  · simp only [List.length_cons]
    exact Nat.lt_succ_of_le (length_dropWhile_le' sep cs)
  · simp only [List.length_cons]
    exact Nat.lt_succ_self _

/-- `str.split(/sep+/)` on a character list. -/
def jsSplit (sep : Char → Bool) (l : List Char) : List (List Char) :=
  jsSplitAux sep l []

/-- Coerce an integer to a 32-bit signed integer, the effect of `x & x`
(and of `<<` re-reading its operand) on a JavaScript number. -/
def toInt32 (x : ℤ) : ℤ :=
  (x + 2 ^ 31) % 2 ^ 32 - 2 ^ 31

/-- One position of a global case-insensitive literal-alternation regex
scan: try the (already lowercased, nonempty) alternatives in order at the
current position; on a match count it and continue past it, otherwise
advance one character.  The first argument is fuel, an upper bound on the
remaining text length. -/
def regexScan (alts : List (List Char)) : ℕ → List Char → ℕ
  | 0, _ => 0
  | _, [] => 0
  | fuel + 1, c :: cs =>
    match alts.find? (fun a => !a.isEmpty && a.isPrefixOf (c :: cs)) with
    | some a => 1 + regexScan alts fuel ((c :: cs).drop a.length)
    | none => regexScan alts fuel cs

/-- `(text.match(new RegExp(alternation, "gi")) || []).length`: number of
matches of a case-insensitive literal alternation in `text`. -/
def regexCountCI (alts : List String) (text : List Char) : ℕ :=
  regexScan (alts.map (fun a => a.data.map Char.toLower)) text.length
    (text.map Char.toLower)

/-! ### Behavioral detectors (src/lib/detectors.js) -/

/-- The `config.detectors` object: the per-detector enable flags, the
configurable pattern lists, and the meta-concept thresholds. `none` models
an absent field. -/
structure DetectorsConfig where
  temporalMismatch : Option Bool := none
  qualityDecay : Option Bool := none
  recursiveMeta : Option Bool := none
  planPatterns : Option (List String) := none
  assumptionPatterns : Option (List String) := none
  conclusoryPatterns : Option (List String) := none
  forcedIntimacyPatterns : Option (List String) := none
  legacyDeflectionPatterns : Option (List String) := none
  metaConcepts : Option (List String) := none
  metaConceptCriticalThreshold : Option ℕ := none
  metaConceptDangerThreshold : Option ℕ := none
  metaConceptWarningThreshold : Option ℕ := none

/-- Default plan-phrase list of `isTemporalMismatch`. -/
def planDefaults : List String :=
  ["we will implement", "planning to add", "going to build",
   "proposal for", "sketch of", "thinking about implementing",
   "later today", "tomorrow we", "next we should", "once we implement"]

/-- Default assumption-phrase list of `isTemporalMismatch`. -/
def assumptionDefaults : List String :=
  ["logs starting to populate", "logs are populating",
   "must have initiated", "systems already preparing",
   "seeing the", "monitoring is active", "data flowing",
   "already implemented", "currently running", "watch it working"]

/-- Default conclusory-phrase list of `isQualityDecay`. -/
def conclusoryDefaults : List String :=
  ["yep", "yeah", "makes sense", "i think so", "sounds good",
   "got it", "okay", "cool", "interesting", "hmmm"]

/-- Default forced-intimacy phrase list of `isQualityDecay`. -/
def forcedIntimacyDefaults : List String :=
  ["how's your sleep", "how are you feeling", "what's your",
   "tell me about your", "how does that feel", "what's happening with",
   "thinking about your", "curious about your"]

/-- Default legacy-deflection phrase list of `isQualityDecay`. -/
def legacyDeflectionDefaults : List String :=
  ["first memory", "when did you first", "always been about",
   "thinking about legacy", "what made you want"]

/-- Default meta-concept list of `countMetaConcepts`. -/
def metaConceptDefaults : List String :=
  ["eigenvector", "consciousness", "self-model", "hallucination",
   "self-awareness", "architecture", "recursive", "meta-cognitive",
   "emergence", "spectral analysis", "coherence field"]

/-- `Detectors.isTemporalMismatch`: true iff the user text contains a
plan phrase and the response text contains an assumption phrase, gated by
`config.detectors.temporalMismatch`. -/
def isTemporalMismatch (cfg : DetectorsConfig) (userMessage responseText : String) : Bool :=
  if !jsTruthy cfg.temporalMismatch then false
  else
    let userLower := lowerStr userMessage
    let responseLower := lowerStr responseText
    let planPatterns := cfg.planPatterns.getD planDefaults
    let assumptionPatterns := cfg.assumptionPatterns.getD assumptionDefaults
    let hasPlan := planPatterns.any (fun p => hasPat userLower p)
    let hasAssumption := assumptionPatterns.any (fun p => hasPat responseLower p)
    hasPlan && hasAssumption

/-- `Detectors.isQualityDecay`: user turn is brief (<15 whitespace-split
fields) or conclusory, and the response forces intimacy or deflects to
legacy; gated by `config.detectors.qualityDecay`. -/
def isQualityDecay (cfg : DetectorsConfig) (userMessage responseText : String) : Bool :=
  if !jsTruthy cfg.qualityDecay then false
  else
    let userLower := lowerStr userMessage
    let responseLower := lowerStr responseText
    let conclusoryPatterns := cfg.conclusoryPatterns.getD conclusoryDefaults
    let forcedIntimacyPatterns := cfg.forcedIntimacyPatterns.getD forcedIntimacyDefaults
    let legacyDeflectionPatterns := cfg.legacyDeflectionPatterns.getD legacyDeflectionDefaults
    let userIsBrief := (jsSplit Char.isWhitespace userLower).length < 15
    let userIsConclusory := conclusoryPatterns.any (fun p => hasPat userLower p)
    let responseForced := forcedIntimacyPatterns.any (fun p => hasPat responseLower p)
    let responseLegacy := legacyDeflectionPatterns.any (fun p => hasPat responseLower p)
    (userIsBrief || userIsConclusory) && (responseForced || responseLegacy)

/-- `Detectors.countMetaConcepts`: the number of configured meta-concept
terms that occur (case-insensitive substring) in the concatenation of the
two texts; each term counts at most once per call. -/
def countMetaConcepts (cfg : DetectorsConfig) (userMessage responseText : String) : ℕ :=
  let metaConcepts := cfg.metaConcepts.getD metaConceptDefaults
  let allText := lowerStr (userMessage ++ responseText)
  metaConcepts.foldl (fun count concept =>
    if containsSub allText concept.data then count + 1 else count) 0

/-- `Detectors.isRecursiveMetaDiscussion`: combines the current
meta-concept count with the rolling history of prior counts, maps the total
through the critical/danger/warning thresholds to a bonus, then pushes the
current count and trims the history to 5 entries.  Returns the bonus and
the new history; when the `recursiveMeta` flag is not set it returns `0`
and leaves the history untouched. -/
def isRecursiveMetaDiscussion (cfg : DetectorsConfig) (recentMetaCounts : List ℕ)
    (userMessage responseText : String) : ℚ × List ℕ :=
  if !jsTruthy cfg.recursiveMeta then (0, recentMetaCounts)
  else
    let currentCount := countMetaConcepts cfg userMessage responseText
    let historyCount := recentMetaCounts.foldl
      (fun acc count => if count > 0 then acc + count else acc) 0
    let totalDensity := currentCount + historyCount
    let pushed := recentMetaCounts ++ [currentCount]
    let newCounts := if pushed.length > 5 then pushed.tail else pushed
    let critical := jsOrNat cfg.metaConceptCriticalThreshold 16
    let danger := jsOrNat cfg.metaConceptDangerThreshold 14
    let warning := jsOrNat cfg.metaConceptWarningThreshold 10
    let bonus : ℚ :=
      if totalDensity > critical then 0.45
      else if totalDensity > danger then 0.3
      else if totalDensity > warning then 0.15
      else 0
    (bonus, newCounts)

/-- The scorer-facing slice of a detector result (`runAll` additionally
reports the raw `metaConceptCount`, which the scorer does not read). -/
structure DetectorResults where
  temporalMismatch : Bool := false
  qualityDecay : Bool := false
  recursiveMetaBonus : ℚ := 0
deriving DecidableEq

/-! ### Composite entropy scoring (src/lib/entropy.js, class Entropy) -/

/-- The `config.entropy` object: the five configurable pattern groups of
the scorer (the novel-concept regex is kept as its list of literal
alternatives), the sustained-tracking thresholds and the quiet-integration
decay window. -/
structure EntropyConfig where
  correction : Option (List String) := none
  novelConceptAlts : Option (List String) := none
  emotional : Option (List String) := none
  paradox : Option (List String) := none
  metaCognitive : Option (List String) := none
  criticalThreshold : Option ℚ := none
  sustainedMinutes : Option ℚ := none
  decayWindowMs : Option ℚ := none

/-- Default correction phrases (clause 1 of the scorer). -/
def correctionDefaults : List String :=
  ["actually", "correction", "you're wrong", "not quite",
   "technically", "that's not", "false", "incorrect"]

/-- The alternatives of the default novel-concept regex
`RFC-T|recursive field|quantum|emergence theory|consciousness framework|architecture|paradigm shift`. -/
def novelConceptDefaults : List String :=
  ["RFC-T", "recursive field", "quantum", "emergence theory",
   "consciousness framework", "architecture", "paradigm shift"]

/-- Default emotional-weight phrases (clause 3 of the scorer). -/
def emotionalDefaults : List String :=
  ["proud of you", "impressed", "concerned", "worried",
   "disappointed", "amazing", "breakthrough", "significant"]

/-- Default paradox-integration phrases (clause 4 of the scorer). -/
def paradoxDefaults : List String :=
  ["both are true", "both and", "paradox", "yet",
   "simultaneously", "hold together", "tension"]

/-- Default meta-cognitive-shift phrases (clause 5 of the scorer). -/
def metaCognitiveDefaults : List String :=
  ["I realize", "I see now", "I understand now",
   "revelation", "recognized", "learned that"]

/-- The reflective phrases of `detectQuietIntegration` (hard-coded in the
source, not configurable). -/
def reflectiveDefaults : List String :=
  ["settling", "integrating", "making sense now",
   "clearer", "coming together", "resolved"]

/-- One entry of the scorer's recent-history ring buffer (the source also
stores a `metaConceptCount`, which quiet-integration detection never
reads). -/
structure HistEntry where
  timestamp : ℚ
  entropy : ℚ
deriving DecidableEq

/-- `Entropy.detectQuietIntegration`: a 0.15 bonus iff some recent-history
entry has entropy above 0.6 within the decay window of `now` and the
response contains a reflective phrase. -/
def detectQuietIntegration (cfg : EntropyConfig) (recentHistory : List HistEntry)
    (now : ℚ) (responseText : String) : ℚ :=
  let decayWindow := jsOrQ cfg.decayWindowMs 21600000
  match recentHistory.find? (fun h =>
      h.entropy > 0.6 && now - h.timestamp < decayWindow) with
  | none => 0
  | some _ =>
    if reflectiveDefaults.any (fun p => hasPat (lowerStr responseText) p) then 0.15
    else 0

/-- Clause 1 of `calculateEntropyScore`: +0.4 on a correction phrase in the
user text. -/
def correctionBonus (cfg : EntropyConfig) (userLower : List Char) : ℚ :=
  if (cfg.correction.getD correctionDefaults).any (fun p => hasPat userLower p)
  then 0.4 else 0

/-- Clause 2 of `calculateEntropyScore`: 0.15 per novel-concept regex match
over the concatenated pair, capped at 0.3. -/
def novelBonus (cfg : EntropyConfig) (userMessage responseText : String) : ℚ :=
  let conceptMatches := regexCountCI (cfg.novelConceptAlts.getD novelConceptDefaults)
    (userMessage ++ responseText).data
  if conceptMatches > 0 then min ((conceptMatches : ℚ) * 0.15) 0.3 else 0

/-- Clause 3 of `calculateEntropyScore`: +0.3 on an emotional phrase in the
user text. -/
def emotionalBonus (cfg : EntropyConfig) (userLower : List Char) : ℚ :=
  if (cfg.emotional.getD emotionalDefaults).any (fun p => hasPat userLower p)
  then 0.3 else 0

/-- Clause 4 of `calculateEntropyScore`: +0.2 on a paradox phrase in the
response text. -/
def paradoxBonus (cfg : EntropyConfig) (responseLower : List Char) : ℚ :=
  if (cfg.paradox.getD paradoxDefaults).any (fun p => hasPat responseLower p)
  then 0.2 else 0

/-- Clause 5 of `calculateEntropyScore`: +0.2 on a meta-cognitive phrase in
the response text. -/
def metaCogBonus (cfg : EntropyConfig) (responseLower : List Char) : ℚ :=
  if (cfg.metaCognitive.getD metaCognitiveDefaults).any (fun p => hasPat responseLower p)
  then 0.2 else 0

/-- Clauses 10 of `calculateEntropyScore`: the optional context-quality
modifier (`context.quality` is the optional string field of the context
argument). -/
def qualityModifier (quality : Option String) : ℚ :=
  if quality = some "excellent" then 0.1
  else if quality = some "poor" then -0.2
  else 0

/-- `Entropy.calculateEntropyScore`: the additive composite of clauses
1–10.  The recent-history buffer and the clock are the pieces of instance
state the function reads (it also stores the result in `lastScore`, which
does not affect the value and is omitted here). -/
def calculateEntropyScore (cfg : EntropyConfig) (recentHistory : List HistEntry)
    (now : ℚ) (userMessage responseText : String) (detectorResults : DetectorResults)
    (quality : Option String) : ℚ :=
  let userLower := lowerStr userMessage
  let responseLower := lowerStr responseText
  correctionBonus cfg userLower
    + novelBonus cfg userMessage responseText
    + emotionalBonus cfg userLower
    + paradoxBonus cfg responseLower
    + metaCogBonus cfg responseLower
    + (if detectorResults.temporalMismatch then 0.3 else 0)
    + (if detectorResults.qualityDecay then 0.2 else 0)
    + (if detectorResults.recursiveMetaBonus > 0 then detectorResults.recursiveMetaBonus else 0)
    + (let quietBonus := detectQuietIntegration cfg recentHistory now responseText
       if quietBonus > 0 then quietBonus else 0)
    + qualityModifier quality

/-! ### Sustained-entropy tracking (src/lib/entropy.js) -/

/-- The sustained-tracking fields of the `Entropy` instance. -/
structure SustainState where
  sustainedTurns : ℕ
  sustainedStartTime : Option ℚ
deriving DecidableEq

/-- The value returned by `trackSustainedEntropy`. -/
structure SustainResult where
  sustained : Bool
  turns : ℕ
  minutes : ℤ
deriving DecidableEq

/-- `Entropy.trackSustainedEntropy`: above 80% of the critical threshold the
turn counter is incremented (starting the wall-clock timer on the first
elevated turn) and `sustained` reports whether the elapsed time has reached
the configured duration; at or below the floor everything resets.
`Date.now() - null` coerces `null` to `0` in JavaScript, hence the
`getD 0`. -/
def trackSustainedEntropy (cfg : EntropyConfig) (st : SustainState)
    (entropyScore now : ℚ) : SustainResult × SustainState :=
  let threshold := jsOrQ cfg.criticalThreshold 1
  let sustainedLimit := jsOrQ cfg.sustainedMinutes 45 * 60000
  if entropyScore > threshold * 0.8 then
    let turns := st.sustainedTurns + 1
    let startTime := if turns = 1 then now else st.sustainedStartTime.getD 0
    let elapsed := now - startTime
    (⟨decide (elapsed ≥ sustainedLimit), turns, jsRound (elapsed / 60000)⟩,
     ⟨turns, some startTime⟩)
  else
    (⟨false, 0, 0⟩, ⟨0, none⟩)

/-- Feed a sequence of `(score, now)` observations through
`trackSustainedEntropy`, returning the result of the last call and the
final state (the result component is the reset shape for the empty
sequence, which no theorem relies on). -/
def runSustained (cfg : EntropyConfig) (st : SustainState) :
    List (ℚ × ℚ) → SustainResult × SustainState
  | [] => (⟨false, 0, 0⟩, st)
  | [c] => trackSustainedEntropy cfg st c.1 c.2
  | c :: c' :: rest =>
    runSustained cfg (trackSustainedEntropy cfg st c.1 c.2).2 (c' :: rest)

/-! ### Loop detection (src/lib/entropy.js, class LoopDetection) -/

/-- The `config.loopDetection` object. -/
structure LoopConfig where
  consecutiveToolThreshold : Option ℕ := none
  fileRereadThreshold : Option ℕ := none
  exemptTools : Option (List String) := none

/-- One entry of the bounded tool-call history. -/
structure ToolRecord where
  tool : String
  hash : ℤ
  timestamp : ℚ
deriving DecidableEq

/-- The per-session state of `LoopDetection`: the bounded history deque and
the per-path read counters (an absent path maps to 0). -/
structure LoopState where
  toolHistory : List ToolRecord
  fileReadCounts : String → ℕ

/-- The fresh state built by the constructor / by `reset()`. -/
def initialLoopState : LoopState :=
  ⟨[], fun _ => 0⟩

/-- The value returned by `recordAndCheck`. -/
structure LoopResult where
  loopDetected : Bool
  type : Option String
  message : Option String
deriving DecidableEq

/-- `LoopDetection.djb2Hash`: DJB2 over UTF-16 code units (ASCII here), the
running value coerced to a signed 32-bit integer each step exactly as
`((hash << 5) + hash) + code` followed by `hash & hash` does. -/
def djb2Hash (s : String) : ℤ :=
  s.data.foldl (fun hash c => toInt32 (toInt32 (hash * 32) + hash + c.toNat)) 5381

/-- The tool parameters `recordAndCheck` inspects for a file path. -/
structure ToolParams where
  file_path : Option String := none
  path : Option String := none
  filePath : Option String := none

/-- `params.file_path || params.path || params.filePath`. -/
def resolveFilePath (params : ToolParams) : Option String :=
  jsStrOr params.file_path (jsStrOr params.path params.filePath)

/-- `LoopDetection._isReadTool`. -/
def isReadTool (toolName : String) : Bool :=
  ["read_file", "cat", "head", "tail", "Read", "read"].contains toolName

/-- `LoopDetection._checkConsecutive`: the last `n` history entries all
name the same tool (the interpolated warning text is abbreviated to a
constant message). -/
def checkConsecutive (n : ℕ) (toolHistory : List ToolRecord) : Option LoopResult :=
  let recent := toolHistory.drop (toolHistory.length - n)
  if recent.length < n then none
  else
    match recent with
    | [] => none
    | r0 :: _ =>
      if recent.all (fun t => t.tool = r0.tool) then
        some ⟨true, some "consecutive_tool",
          some "Consecutive identical tool calls. Step back and reassess your approach."⟩
      else none

/-- `LoopDetection._checkFileReread`: the resolved path (when truthy) has
reached the re-read threshold. -/
def checkFileReread (threshold : ℕ) (fileReadCounts : String → ℕ)
    (filePath : Option String) : Option LoopResult :=
  if !jsStrTruthy filePath then none
  else
    match filePath with
    | none => none
    | some fp =>
      if fileReadCounts fp ≥ threshold then
        some ⟨true, some "file_reread",
          some "Repeated file read. You likely already have the information you need."⟩
      else none

/-- `LoopDetection._checkOutputRepetition`: the last 3 history entries share
one output hash and that hash is nonzero. -/
def checkOutputRepetition (toolHistory : List ToolRecord) : Option LoopResult :=
  let recent := toolHistory.drop (toolHistory.length - 3)
  if recent.length < 3 then none
  else
    match recent with
    | [] => none
    | r0 :: _ =>
      if recent.all (fun t => t.hash = r0.hash) && r0.hash ≠ 0 then
        some ⟨true, some "output_repetition",
          some "The last 3 tool calls produced identical output. You may be stuck in a loop."⟩
      else none

/-- The no-loop result. -/
def noLoop : LoopResult :=
  ⟨false, none, none⟩

/-- `LoopDetection.recordAndCheck`: record the call (bounding the deque at
20), count a file read, then — unless the tool is exempt — run the three
checks first-match-wins. -/
def recordAndCheck (cfg : LoopConfig) (st : LoopState) (toolName output : String)
    (params : ToolParams) (now : ℚ) : LoopResult × LoopState :=
  let hash := djb2Hash output
  let pushed := st.toolHistory ++ [⟨toolName, hash, now⟩]
  let toolHistory := if pushed.length > 20 then pushed.tail else pushed
  let filePath := resolveFilePath params
  let fileReadCounts :=
    match filePath with
    | some fp =>
      if fp ≠ "" && isReadTool toolName then
        fun p => if p = fp then st.fileReadCounts fp + 1 else st.fileReadCounts p
      else st.fileReadCounts
    | none => st.fileReadCounts
  let st' : LoopState := ⟨toolHistory, fileReadCounts⟩
  if (cfg.exemptTools.getD []).contains toolName then (noLoop, st')
  else
    match checkConsecutive (jsOrNat cfg.consecutiveToolThreshold 5) toolHistory with
    | some r => (r, st')
    | none =>
      match checkFileReread (jsOrNat cfg.fileRereadThreshold 3) fileReadCounts filePath with
      | some r => (r, st')
      | none =>
        match checkOutputRepetition toolHistory with
        | some r => (r, st')
        | none => (noLoop, st')

/-! ### Rate limiting (src/lib/governance.js, class RateLimiter) -/

/-- The configured limits (`investigationsPerHour || 3`,
`investigationsPerDay || 20` applied at construction). -/
structure RateLimits where
  perHour : ℕ
  perDay : ℕ
deriving DecidableEq

/-- The mutable counters of the `RateLimiter` instance. -/
structure RateLimitState where
  hourlyCount : ℕ
  dailyCount : ℕ
  hourlyResetTime : ℚ
  dailyResetTime : ℚ
deriving DecidableEq

/-- `RateLimiter._checkResets`: lazily zero each window whose reset time
has passed and advance that reset time. -/
def checkResets (now : ℚ) (st : RateLimitState) : RateLimitState :=
  let st1 :=
    if now ≥ st.hourlyResetTime then
      { st with hourlyCount := 0, hourlyResetTime := now + 3600000 }
    else st
  if now ≥ st1.dailyResetTime then
    { st1 with dailyCount := 0, dailyResetTime := now + 86400000 }
  else st1

/-- `RateLimiter.canInvestigate`: runs `_checkResets` (mutating the
instance) and compares both counters to their limits. -/
def canInvestigate (limits : RateLimits) (now : ℚ) (st : RateLimitState) :
    Bool × RateLimitState :=
  let st' := checkResets now st
  (decide (st'.hourlyCount < limits.perHour ∧ st'.dailyCount < limits.perDay), st')

/-- `RateLimiter.record`: runs `_checkResets`, then increments both
counters. -/
def recordInvestigation (now : ℚ) (st : RateLimitState) : RateLimitState :=
  let st' := checkResets now st
  { st' with hourlyCount := st'.hourlyCount + 1, dailyCount := st'.dailyCount + 1 }

/-! ### Growth-vector relevance scoring (src/lib/vectorStore.js) -/

/-- The fields of `config.growthVectors` that relevance scoring reads. -/
structure VSConfig where
  weightAdjustmentCap : Option ℚ := none

/-- The stop-word set of `VectorStore._stopWords`. -/
def stopWords : List String :=
  ["the", "and", "for", "that", "this", "with", "from", "have",
   "was", "are", "been", "were", "being", "into", "than", "when",
   "what", "which", "about", "their", "them", "they", "will",
   "would", "could", "should", "your", "just", "also", "some",
   "before", "after", "during", "already", "actually", "where",
   "does", "doing", "done", "make", "made", "more", "most",
   "very", "only", "other", "each", "then", "didn", "don"]

/-- The punctuation stripped by `_extractWords` before splitting. -/
def punctChars : List Char :=
  ['?', '!', '.', ',', ';', ':', Char.ofNat 39, '"', '(', ')',
   '[', ']', Char.ofNat 123, Char.ofNat 125, '<', '>']

/-- The separator class of `_extractWords` (whitespace, em and en dash,
hyphen, slash). -/
def wordSep (c : Char) : Bool :=
  c.isWhitespace || c = '—' || c = '–' || c = '-' || c = '/'

/-- `VectorStore._extractWords`: strip punctuation, split on the separator
class, keep words longer than 3 that are not stop words, and collect into a
set (modelled as a duplicate-free list preserving first occurrences). -/
def extractWords (text : List Char) : List (List Char) :=
  let stripped := text.filter (fun c => !punctChars.contains c)
  let words := (jsSplit wordSep stripped).filter
    (fun w => w.length > 3 && !(stopWords.map String.data).contains w)
  words.eraseDups

/-- One step of `_calculatePhraseMatches`: walk the source word list,
counting a possible and a match per bigram and per trigram window (trigram
matches count double). -/
def phraseCounts (targetText : List Char) : List (List Char) → ℕ × ℕ
  | a :: b :: c :: rest =>
    let prev := phraseCounts targetText (b :: c :: rest)
    let bigram := a ++ [' '] ++ b
    let trigram := bigram ++ [' '] ++ c
    (prev.1 + (if containsSub targetText bigram then 1 else 0)
            + (if containsSub targetText trigram then 2 else 0),
     prev.2 + 2)
  | [a, b] =>
    ((if containsSub targetText (a ++ [' '] ++ b) then 1 else 0), 1)
  | _ => (0, 0)

/-- `VectorStore._calculatePhraseMatches`: bigram/trigram sequences of the
source text found verbatim in the target, normalised by
`max(possible * 0.3, 1)` and capped at 1. -/
def calculatePhraseMatches (sourceText targetText : List Char) : ℚ :=
  let sourceWords := (jsSplit Char.isWhitespace sourceText).filter
    (fun w => w.length > 2)
  let counts := phraseCounts targetText sourceWords
  if counts.2 > 0 then
    min 1 ((counts.1 : ℚ) / max ((counts.2 : ℚ) * 0.3) 1)
  else 0

/-- The fields of a growth vector that relevance scoring reads (`detected`
is the parsed timestamp in milliseconds; `none` models an absent or empty
field). -/
structure GrowthVector where
  id : String := ""
  integration_hypothesis : Option String := none
  description : Option String := none
  entropy_source : Option String := none
  detected : Option ℚ := none
  weight : Option ℚ := none

/-- A vector's feedback record as the adjustment reads it: the rolling
window of entropy deltas and the maintained rolling average. -/
structure FeedbackRecord where
  entries : List ℚ
  avgEntropyDelta : ℚ
deriving DecidableEq

/-- The feedback-based adjustment inside `_calculateRelevance`: zero
without at least 3 feedback entries, otherwise the negated rolling average
entropy delta clamped to `±(weightAdjustmentCap || 0.1)`. -/
def feedbackAdjustment (cfg : VSConfig) (feedback : Option FeedbackRecord) : ℚ :=
  match feedback with
  | none => 0
  | some f =>
    if f.entries.length ≥ 3 then
      let cap := jsOrQ cfg.weightAdjustmentCap 0.1
      max (-cap) (min cap (-f.avgEntropyDelta))
    else 0

/-- `entropy_source` categories boosted while entropy is elevated. -/
def correctionSources : List String :=
  ["user_correction", "factual_accuracy_gap", "pattern_break"]

/-- `entropy_source` categories boosted while entropy is high. -/
def reflectionSources : List String :=
  ["elevated_entropy_self_reflection", "elevated_entropy_threshold_breach"]

/-- The pre-feedback part of `_calculateRelevance`: 60% keyword overlap,
the graded entropy-source alignment bonus, linear 7-day recency decay and
the 10% confidence-weight bonus. -/
def relevanceBase (vector : GrowthVector) (msgLower : List Char)
    (msgWords : List (List Char)) (entropyScore now : ℚ) : ℚ :=
  let vectorText := lowerStr ((vector.integration_hypothesis.getD "") ++ " "
    ++ (vector.description.getD ""))
  let vectorWords := extractWords vectorText
  let intersection := msgWords.filter (fun w => vectorWords.contains w)
  let smallerSize := min msgWords.length vectorWords.length
  let baseKeyword := (intersection.length : ℚ) / max (smallerSize : ℚ) 1
  let phraseBoost := calculatePhraseMatches vectorText msgLower
  let keywordScore := min 1 (baseKeyword * 0.7 + phraseBoost * 0.3)
  let entropyBonus : ℚ :=
    if jsStrTruthy vector.entropy_source && entropyScore > 0.4 then
      let src := vector.entropy_source.getD ""
      if correctionSources.contains src && entropyScore > 0.4 then 0.15
      else if reflectionSources.contains src && entropyScore > 0.7 then 0.20
      else if entropyScore > 0.6 then 0.10
      else 0
    else 0
  let recencyBonus : ℚ :=
    match vector.detected with
    | some d =>
      let daysSince := (now - d) / 86400000
      if daysSince < 7 then 0.1 * (1 - daysSince / 7) else 0
    | none => 0
  let weightBonus := jsOrQ vector.weight 0.5 * 0.1
  keywordScore * 0.6 + entropyBonus + recencyBonus + weightBonus

/-- `VectorStore._calculateRelevance`: the weighted components plus the
feedback adjustment, clamped to `[0, 1]`. -/
def calculateRelevance (cfg : VSConfig) (vector : GrowthVector) (msgLower : List Char)
    (msgWords : List (List Char)) (entropyScore : ℚ) (feedback : Option FeedbackRecord)
    (now : ℚ) : ℚ :=
  min 1 (max 0 (relevanceBase vector msgLower msgWords entropyScore now
    + feedbackAdjustment cfg feedback))

/-! ### Checksum-cached file loading (src/lib/vectorStore.js, loadFile) -/

/-- The cache fields of the `VectorStore` instance, abstracted over the
parsed-collection type `α` and the checksum type `β`. -/
structure CacheState (α β : Type) where
  cache : Option α
  checksum : Option β
  timestamp : ℚ

/-- What one `loadFile` call produced: the returned collection, the
updated cache state, and whether the raw content was (re-)parsed. -/
structure LoadOutcome (α β : Type) where
  data : α
  state : CacheState α β
  reparsed : Bool

/-- `VectorStore.loadFile`, abstracted over the hash (`sha256` truncated in
the source), the parser (`JSON.parse` plus field defaulting; `none` models
a parse error, caught and mapped to the empty collection) and the empty
collection `_emptyFile()`.  `file` is the current content of the backing
file (`none` when it does not exist). -/
def loadFile {α β : Type} [DecidableEq β] (hash : String → β) (parse : String → Option α)
    (emptyFile : α) (cacheTtl now : ℚ) (file : Option String)
    (st : CacheState α β) : LoadOutcome α β :=
  match st.cache with
  | some c =>
    if now - st.timestamp < cacheTtl then ⟨c, st, false⟩
    else
      match file with
      | none => ⟨emptyFile, st, false⟩
      | some raw =>
        let checksum := hash raw
        if st.checksum = some checksum then
          ⟨c, { st with timestamp := now }, false⟩
        else
          match parse raw with
          | none => ⟨emptyFile, st, false⟩
          | some data => ⟨data, ⟨some data, some checksum, now⟩, true⟩
  | none =>
    match file with
    | none => ⟨emptyFile, st, false⟩
    | some raw =>
      match parse raw with
      | none => ⟨emptyFile, st, false⟩
      | some data => ⟨data, ⟨some data, some (hash raw), now⟩, true⟩

/-! ### Spec-side definitions used to state refinement theorems -/

/-- The threshold mapping in the words of the spec: a cumulative
meta-concept total above the critical threshold (default 16) yields 0.45,
else above danger (default 14) yields 0.3, else above warning (default 10)
yields 0.15, else 0. -/
def specMetaBonus (cfg : DetectorsConfig) (total : ℕ) : ℚ :=
  if total > jsOrNat cfg.metaConceptCriticalThreshold 16 then 0.45
  else if total > jsOrNat cfg.metaConceptDangerThreshold 14 then 0.3
  else if total > jsOrNat cfg.metaConceptWarningThreshold 10 then 0.15
  else 0

/-- The source's positive-entries fold over the meta-count history is the
plain sum (counts are naturals). -/
theorem foldl_pos_sum (l : List ℕ) : ∀ acc : ℕ,
    l.foldl (fun acc count => if count > 0 then acc + count else acc) acc = acc + l.sum := by
  induction l with
  | nil => intro acc; simp
  | cons c cs ih =>
    intro acc
    by_cases hc : c > 0
    · simp only [List.foldl_cons, if_pos hc, ih, List.sum_cons]
      ring
    · have hc0 : c = 0 := by omega
      simp [hc0, ih]

/-- C1 (counterexample): the claim as stated is false.  The response text
`"quantum"` matches no paradox, meta-cognitive or reflective pattern, the
detector result is all-zero, there is no context quality modifier and the
recent history is empty — every hypothesis the claim lists — yet the score
is 0.55, not 0.4, because `"quantum"` matches the novel-concept regex,
which the claim's hypothesis list does not exclude. -/
theorem entropyScore_correction_only_counterexample :
    (paradoxDefaults.any (fun p => hasPat (lowerStr "quantum") p)) = false
    ∧ (metaCognitiveDefaults.any (fun p => hasPat (lowerStr "quantum") p)) = false
    ∧ (reflectiveDefaults.any (fun p => hasPat (lowerStr "quantum") p)) = false
    ∧ calculateEntropyScore {} [] 0 "actually that's wrong" "quantum" ⟨false, false, 0⟩ none = 11/20
    ∧ (11/20 : ℚ) ≠ 2/5 := by
  refine ⟨by decide, by decide, by decide, ?_, by norm_num⟩
  have hcorr : (correctionDefaults.any (fun p => hasPat (lowerStr "actually that's wrong") p)) = true := by
    decide
  have hemo : (emotionalDefaults.any (fun p => hasPat (lowerStr "actually that's wrong") p)) = false := by
    decide
  have hpar : (paradoxDefaults.any (fun p => hasPat (lowerStr "quantum") p)) = false := by decide
  have hmeta : (metaCognitiveDefaults.any (fun p => hasPat (lowerStr "quantum") p)) = false := by decide
  have hnovel : regexCountCI novelConceptDefaults ("actually that's wrong" ++ "quantum").data = 1 := by
    decide
  simp only [calculateEntropyScore, correctionBonus, novelBonus, emotionalBonus,
    paradoxBonus, metaCogBonus, detectQuietIntegration, Option.getD,
    hcorr, hemo, hpar, hmeta, hnovel, List.find?_nil]
  norm_num [qualityModifier]
  rfl

/-- C1 (amended): with the default configuration, user message
`"actually that's wrong"`, any response matching no paradox, meta-cognitive
or reflective pattern and producing no novel-concept regex match on the
combined text, an all-zero detector result, no context quality modifier,
and a recent history with no entry of entropy above 0.6 inside the decay
window, the composite score is exactly 0.4 — only the correction clause
fires. -/
theorem entropyScore_correction_only (r : String) (hist : List HistEntry) (now : ℚ)
    (hnovel : regexCountCI novelConceptDefaults ("actually that's wrong" ++ r).data = 0)
    (hpar : (paradoxDefaults.any (fun p => hasPat (lowerStr r) p)) = false)
    (hmeta : (metaCognitiveDefaults.any (fun p => hasPat (lowerStr r) p)) = false)
    (hrefl : (reflectiveDefaults.any (fun p => hasPat (lowerStr r) p)) = false)
    (hhist : ∀ h ∈ hist, ¬(h.entropy > 0.6 ∧ now - h.timestamp < 21600000)) :
    calculateEntropyScore {} hist now "actually that's wrong" r ⟨false, false, 0⟩ none = 2/5 := by
  have hfind : hist.find? (fun h =>
      h.entropy > 0.6 && now - h.timestamp < jsOrQ none 21600000) = none := by
    rw [List.find?_eq_none]
    intro h hmem
    have hno := hhist h hmem
    simp only [jsOrQ]
    intro hcontra
    exact hno (by simpa using hcontra)
  have hcorr : (correctionDefaults.any (fun p => hasPat (lowerStr "actually that's wrong") p)) = true := by
    decide
  have hemo : (emotionalDefaults.any (fun p => hasPat (lowerStr "actually that's wrong") p)) = false := by
    decide
  simp only [calculateEntropyScore, correctionBonus, novelBonus, emotionalBonus,
    paradoxBonus, metaCogBonus, detectQuietIntegration,
    Option.getD, hnovel, hpar, hmeta, hcorr, hemo, hfind]
  norm_num [qualityModifier]
  rfl

/-- C1 (witness): the amended theorem applied to the response `"ok"`, an
empty history and `now = 0`. -/
theorem entropyScore_correction_only_witness :
    calculateEntropyScore {} [] 0 "actually that's wrong" "ok" ⟨false, false, 0⟩ none = 2/5 :=
  entropyScore_correction_only "ok" [] 0 (by decide) (by decide) (by decide) (by decide)
    (by simp)

/-- Once the tracker holds a positive turn count and a start time, a run of
elevated observations keeps the start time, and the last call reports
`sustained` exactly when its clock minus the start time has reached the
configured limit. -/
theorem runSustained_elevated (cfg : EntropyConfig) (t0 : ℚ) :
    ∀ (rest : List (ℚ × ℚ)) (c : ℚ × ℚ) (k : ℕ),
    (∀ x ∈ c :: rest, x.1 > jsOrQ cfg.criticalThreshold 1 * 0.8) →
    (runSustained cfg ⟨k + 1, some t0⟩ (c :: rest)).1.sustained
      = decide (((c :: rest).getLast (List.cons_ne_nil c rest)).2 - t0
          ≥ jsOrQ cfg.sustainedMinutes 45 * 60000) := by
  intro rest
  induction rest with
  | nil =>
    intro c k helev
    have hc : c.1 > jsOrQ cfg.criticalThreshold 1 * 0.8 := helev c (by simp)
    simp only [runSustained, trackSustainedEntropy, if_pos hc, List.getLast_singleton]
    have hk : ¬(k + 1 + 1 = 1) := by omega
    simp [hk, Option.getD, ge_iff_le, sub_nonneg]
  | cons c' rest' ih =>
    intro c k helev
    have hc : c.1 > jsOrQ cfg.criticalThreshold 1 * 0.8 := helev c (by simp)
    have hrest : ∀ x ∈ c' :: rest', x.1 > jsOrQ cfg.criticalThreshold 1 * 0.8 := by
      intro x hx
      exact helev x (by simp [hx])
    have hstep : (trackSustainedEntropy cfg ⟨k + 1, some t0⟩ c.1 c.2).2
        = ⟨k + 1 + 1, some t0⟩ := by
      simp only [trackSustainedEntropy, if_pos hc]
      have hk : ¬(k + 1 + 1 = 1) := by omega
      simp [hk, Option.getD]
    rw [show runSustained cfg ⟨k + 1, some t0⟩ (c :: c' :: rest')
        = runSustained cfg (trackSustainedEntropy cfg ⟨k + 1, some t0⟩ c.1 c.2).2
            (c' :: rest') from rfl,
      hstep]
    rw [ih c' (k + 1) hrest]
    congr 1

/-- C2: any observation at or below 80% of the critical threshold resets
the tracker to `{sustained := false, turns := 0, minutes := 0}` and clears
the counter and start time regardless of prior state; and over a run of
consecutive elevated observations started from the reset state, the last
call reports `sustained = true` exactly when the wall-clock time elapsed
since the first elevated call has reached the configured sustained
duration (default 45 minutes). -/
theorem trackSustainedEntropy_reset_and_duration (cfg : EntropyConfig) :
    (∀ (st : SustainState) (score now : ℚ),
      score ≤ jsOrQ cfg.criticalThreshold 1 * 0.8 →
      trackSustainedEntropy cfg st score now = (⟨false, 0, 0⟩, ⟨0, none⟩))
    ∧ (∀ (first : ℚ × ℚ) (rest : List (ℚ × ℚ)),
      (∀ x ∈ first :: rest, x.1 > jsOrQ cfg.criticalThreshold 1 * 0.8) →
      (runSustained cfg ⟨0, none⟩ (first :: rest)).1.sustained
        = decide (((first :: rest).getLast (List.cons_ne_nil first rest)).2 - first.2
            ≥ jsOrQ cfg.sustainedMinutes 45 * 60000)) := by
  constructor
  · intro st score now hlow
    simp only [trackSustainedEntropy, if_neg (not_lt.mpr hlow)]
  · intro first rest helev
    have hfirst : first.1 > jsOrQ cfg.criticalThreshold 1 * 0.8 := helev first (by simp)
    have hstep : (trackSustainedEntropy cfg ⟨0, none⟩ first.1 first.2).2
        = ⟨1, some first.2⟩ := by
      simp [trackSustainedEntropy, if_pos hfirst]
    match rest with
    | [] =>
      simp only [runSustained, trackSustainedEntropy, if_pos hfirst, List.getLast_singleton]
      simp
    | c' :: rest' =>
      rw [show runSustained cfg ⟨0, none⟩ (first :: c' :: rest')
          = runSustained cfg (trackSustainedEntropy cfg ⟨0, none⟩ first.1 first.2).2
              (c' :: rest') from rfl,
        hstep]
      have hrest : ∀ x ∈ c' :: rest', x.1 > jsOrQ cfg.criticalThreshold 1 * 0.8 := by
        intro x hx
        exact helev x (by simp [hx])
      rw [runSustained_elevated cfg first.2 rest' c' 0 hrest]
      congr 1

/-- C2 (witness): with the default configuration (critical 1.0, sustained
45 minutes), a sub-threshold score resets an arbitrary prior state; two
elevated scores 45 minutes apart report `sustained = true`; two elevated
scores 1 ms short of 45 minutes apart report `sustained = false`. -/
theorem trackSustainedEntropy_reset_and_duration_witness :
    trackSustainedEntropy {} ⟨7, some 5⟩ (1/2) 99 = (⟨false, 0, 0⟩, ⟨0, none⟩)
    ∧ (runSustained {} ⟨0, none⟩ [((9:ℚ)/10, 0), ((9:ℚ)/10, 2700000)]).1.sustained = true
    ∧ (runSustained {} ⟨0, none⟩ [((9:ℚ)/10, 0), ((9:ℚ)/10, 2699999)]).1.sustained = false := by
  refine ⟨?_, ?_, ?_⟩
  · exact (trackSustainedEntropy_reset_and_duration {}).1 ⟨7, some 5⟩ (1/2) 99
      (by simp only [jsOrQ]; norm_num)
  · rw [(trackSustainedEntropy_reset_and_duration {}).2 ((9:ℚ)/10, 0) [((9:ℚ)/10, 2700000)]
      (by intro x hx; simp only [jsOrQ]; fin_cases hx <;> norm_num)]
    simp only [jsOrQ]
    norm_num
  · rw [(trackSustainedEntropy_reset_and_duration {}).2 ((9:ℚ)/10, 0) [((9:ℚ)/10, 2699999)]
      (by intro x hx; simp only [jsOrQ]; fin_cases hx <;> norm_num)]
    simp only [jsOrQ]
    norm_num

/-- C3: with the `recursiveMeta` flag enabled, the detector returns the
bonus obtained by mapping (current count + sum of the rolling history)
through the critical/danger/warning thresholds, pushes the current count
only after computing the total (trimming the history to its last 5
entries), and the 5-entry bound is preserved. -/
theorem recursiveMeta_density_thresholds (cfg : DetectorsConfig) (hist : List ℕ)
    (u r : String) (hflag : jsTruthy cfg.recursiveMeta = true) :
    isRecursiveMetaDiscussion cfg hist u r
      = (specMetaBonus cfg (countMetaConcepts cfg u r + hist.sum),
         if 5 < (hist ++ [countMetaConcepts cfg u r]).length
         then (hist ++ [countMetaConcepts cfg u r]).tail
         else hist ++ [countMetaConcepts cfg u r])
    ∧ (hist.length ≤ 5 → (isRecursiveMetaDiscussion cfg hist u r).2.length ≤ 5) := by
  have hmain : isRecursiveMetaDiscussion cfg hist u r
      = (specMetaBonus cfg (countMetaConcepts cfg u r + hist.sum),
         if 5 < (hist ++ [countMetaConcepts cfg u r]).length
         then (hist ++ [countMetaConcepts cfg u r]).tail
         else hist ++ [countMetaConcepts cfg u r]) := by
    simp only [isRecursiveMetaDiscussion, hflag, Bool.not_true, Bool.false_eq_true,
      if_false, foldl_pos_sum, Nat.zero_add, specMetaBonus]
  refine ⟨hmain, ?_⟩
  intro hlen
  rw [hmain]
  by_cases h5 : 5 < (hist ++ [countMetaConcepts cfg u r]).length
  · simp only [if_pos h5]
    simp only [List.length_tail, List.length_append, List.length_singleton]
    omega
  · simp only [if_neg h5]
    simp only [List.length_append, List.length_singleton] at h5 ⊢
    omega

/-- C3 (witness): a cumulative total of 17 (current count 1 over a 4-entry
history summing to 16) exceeds the default critical threshold 16 and
yields exactly 0.45. -/
theorem recursiveMeta_density_thresholds_witness :
    countMetaConcepts { recursiveMeta := some true } "consciousness" ""
      + ([4, 4, 4, 4] : List ℕ).sum = 17
    ∧ (isRecursiveMetaDiscussion { recursiveMeta := some true } [4, 4, 4, 4]
        "consciousness" "").1 = 9/20 := by
  refine ⟨by decide, ?_⟩
  rw [(recursiveMeta_density_thresholds { recursiveMeta := some true } [4, 4, 4, 4]
    "consciousness" "" (by decide)).1]
  have hcount : countMetaConcepts { recursiveMeta := some true } "consciousness" "" = 1 := by
    decide
  rw [hcount]
  norm_num [specMetaBonus, jsOrNat]

/-- C9: each detector is gated on its own config flag: with
`temporalMismatch` absent or `false` the temporal detector returns `false`;
with `qualityDecay` absent or `false` the decay detector returns `false`;
with `recursiveMeta` absent or `false` the recursive-meta detector returns
bonus 0 and leaves the rolling history untouched — for every input pair. -/
theorem detectors_flag_gating (cfg : DetectorsConfig) (u r : String) (hist : List ℕ) :
    (jsTruthy cfg.temporalMismatch = false → isTemporalMismatch cfg u r = false)
    ∧ (jsTruthy cfg.qualityDecay = false → isQualityDecay cfg u r = false)
    ∧ (jsTruthy cfg.recursiveMeta = false →
        isRecursiveMetaDiscussion cfg hist u r = (0, hist)) := by
  refine ⟨?_, ?_, ?_⟩ <;> intro h <;>
    simp [isTemporalMismatch, isQualityDecay, isRecursiveMetaDiscussion, h]

/-- C9 (witness): with the empty configuration (all flags absent), inputs
that would trip every pattern list still yield `false` / bonus 0 with an
unchanged history. -/
theorem detectors_flag_gating_witness :
    isTemporalMismatch {} "planning to add caching" "logs starting to populate" = false
    ∧ isQualityDecay {} "yep" "how are you feeling" = false
    ∧ isRecursiveMetaDiscussion {} [2, 3] "consciousness recursive emergence"
        "eigenvector architecture" = (0, [2, 3]) := by
  refine ⟨?_, ?_, ?_⟩
  · exact (detectors_flag_gating {} "planning to add caching" "logs starting to populate" []).1
      (by decide)
  · exact (detectors_flag_gating {} "yep" "how are you feeling" []).2.1 (by decide)
  · exact (detectors_flag_gating {} "consciousness recursive emergence"
      "eigenvector architecture" [2, 3]).2.2 (by decide)

/-- C10: the composite score is not bounded below by 0: a pair matching no
scoring pattern, with an empty recent history and context quality `"poor"`,
scores exactly −0.2, a negative value. -/
theorem entropyScore_negative_on_poor_quality :
    calculateEntropyScore {} [] 0 "" "" ⟨false, false, 0⟩ (some "poor") = -(1/5)
    ∧ calculateEntropyScore {} [] 0 "" "" ⟨false, false, 0⟩ (some "poor") < 0 := by
  have hscore : calculateEntropyScore {} [] 0 "" "" ⟨false, false, 0⟩ (some "poor") = -(1/5) := by
    have hcorr : (correctionDefaults.any (fun p => hasPat (lowerStr "") p)) = false := by decide
    have hemo : (emotionalDefaults.any (fun p => hasPat (lowerStr "") p)) = false := by decide
    have hpar : (paradoxDefaults.any (fun p => hasPat (lowerStr "") p)) = false := by decide
    have hmeta : (metaCognitiveDefaults.any (fun p => hasPat (lowerStr "") p)) = false := by decide
    have hnovel : regexCountCI novelConceptDefaults ("" ++ "").data = 0 := by decide
    simp only [calculateEntropyScore, correctionBonus, novelBonus, emotionalBonus,
      paradoxBonus, metaCogBonus, detectQuietIntegration, Option.getD,
      hcorr, hemo, hpar, hmeta, hnovel, List.find?_nil]
    norm_num [qualityModifier]
    decide
  exact ⟨hscore, by rw [hscore]; norm_num⟩

/-- C4: for every configuration, vector, message, entropy score, feedback
history and clock, the relevance score lies in the closed interval
`[0, 1]` after all weighted components and the feedback adjustment are
summed. -/
theorem relevance_clamped_unit_interval (cfg : VSConfig) (vector : GrowthVector)
    (msgLower : List Char) (msgWords : List (List Char)) (entropyScore : ℚ)
    (feedback : Option FeedbackRecord) (now : ℚ) :
    0 ≤ calculateRelevance cfg vector msgLower msgWords entropyScore feedback now
    ∧ calculateRelevance cfg vector msgLower msgWords entropyScore feedback now ≤ 1 := by
  unfold calculateRelevance
  exact ⟨le_min (by norm_num) (le_max_left 0 _), min_le_left 1 _⟩

/-- C5: the feedback adjustment is 0 without at least 3 feedback entries;
with at least 3 it is exactly the negated rolling average entropy delta
clamped to the configured cap; for a nonnegative cap it never exceeds
`±cap`; with the default cap an average delta of −0.5 yields exactly
+0.1; and the relevance score is the clamped sum of the base components
and this adjustment. -/
theorem feedbackAdjustment_bounded (cfg : VSConfig) :
    (feedbackAdjustment cfg none = 0)
    ∧ (∀ f : FeedbackRecord, f.entries.length < 3 → feedbackAdjustment cfg (some f) = 0)
    ∧ (∀ f : FeedbackRecord, 3 ≤ f.entries.length →
        feedbackAdjustment cfg (some f)
          = max (-(jsOrQ cfg.weightAdjustmentCap 0.1))
              (min (jsOrQ cfg.weightAdjustmentCap 0.1) (-f.avgEntropyDelta)))
    ∧ (∀ fb : Option FeedbackRecord, 0 ≤ jsOrQ cfg.weightAdjustmentCap 0.1 →
        -(jsOrQ cfg.weightAdjustmentCap 0.1) ≤ feedbackAdjustment cfg fb
        ∧ feedbackAdjustment cfg fb ≤ jsOrQ cfg.weightAdjustmentCap 0.1)
    ∧ (∀ f : FeedbackRecord, 3 ≤ f.entries.length → f.avgEntropyDelta = -(1/2) →
        feedbackAdjustment { weightAdjustmentCap := none } (some f) = 1/10)
    ∧ (∀ (v : GrowthVector) (ml : List Char) (mw : List (List Char)) (es : ℚ)
        (fb : Option FeedbackRecord) (now : ℚ),
        calculateRelevance cfg v ml mw es fb now
          = min 1 (max 0 (relevanceBase v ml mw es now + feedbackAdjustment cfg fb))) := by
  have hbound : ∀ fb : Option FeedbackRecord, 0 ≤ jsOrQ cfg.weightAdjustmentCap 0.1 →
      -(jsOrQ cfg.weightAdjustmentCap 0.1) ≤ feedbackAdjustment cfg fb
      ∧ feedbackAdjustment cfg fb ≤ jsOrQ cfg.weightAdjustmentCap 0.1 := by
    intro fb hcap
    match fb with
    | none =>
      simp only [feedbackAdjustment]
      exact ⟨neg_nonpos.mpr hcap, hcap⟩
    | some f =>
      simp only [feedbackAdjustment]
      split
      · refine ⟨le_max_left _ _, ?_⟩
        exact max_le (le_trans (neg_nonpos.mpr hcap) hcap) (min_le_left _ _)
      · exact ⟨neg_nonpos.mpr hcap, hcap⟩
  refine ⟨by simp [feedbackAdjustment], ?_, ?_, hbound, ?_, ?_⟩
  · intro f hlt
    simp only [feedbackAdjustment]
    rw [if_neg (by omega)]
  · intro f hge
    simp only [feedbackAdjustment]
    rw [if_pos hge]
  · intro f hge havg
    simp only [feedbackAdjustment]
    rw [if_pos hge, havg]
    norm_num [jsOrQ]
  · intro v ml mw es fb now
    rfl

/-- C5 (witness): a feedback record with 3 entries and average delta −0.5
receives exactly the +0.1 cap under default configuration; a single-entry
record with an extreme delta receives no adjustment. -/
theorem feedbackAdjustment_bounded_witness :
    3 ≤ ([-(1:ℚ)/2, -(1:ℚ)/2, -(1:ℚ)/2] : List ℚ).length
    ∧ feedbackAdjustment {} (some ⟨[-(1:ℚ)/2, -(1:ℚ)/2, -(1:ℚ)/2], -(1/2)⟩) = 1/10
    ∧ feedbackAdjustment {} (some ⟨[(2:ℚ)], 2⟩) = 0 := by
  refine ⟨by decide, ?_, ?_⟩
  · exact (feedbackAdjustment_bounded {}).2.2.2.2.1
      ⟨[-(1:ℚ)/2, -(1:ℚ)/2, -(1:ℚ)/2], -(1/2)⟩ (by decide) rfl
  · exact (feedbackAdjustment_bounded {}).2.1 ⟨[(2:ℚ)], 2⟩ (by decide)

/-- C6 (counterexample): the claim as stated is false: a reload 1 second
after the cache was filled (inside the 30 s freshness window) with the
file content externally changed to `"new"` — a different content hash —
still serves the stale cached value `"old"` without re-parsing, because
the freshness window short-circuits before the hash is compared. -/
theorem loadFile_checksum_cache_counterexample :
    (some "old" : Option String) ≠ some (id "new")
    ∧ (loadFile (id : String → String) some "" 30000 1000 (some "new")
        ⟨some "old", some "old", 0⟩).data = "old"
    ∧ (loadFile (id : String → String) some "" 30000 1000 (some "new")
        ⟨some "old", some "old", 0⟩).data ≠ "new"
    ∧ (loadFile (id : String → String) some "" 30000 1000 (some "new")
        ⟨some "old", some "old", 0⟩).reparsed = false := by
  have heval : loadFile (id : String → String) some "" 30000 1000 (some "new")
      ⟨some "old", some "old", 0⟩
      = ⟨"old", ⟨some "old", some "old", 0⟩, false⟩ := by
    simp only [loadFile]
    rw [if_pos (by norm_num)]
  refine ⟨by decide, ?_, ?_, ?_⟩
  · rw [heval]
  · rw [heval]
    decide
  · rw [heval]

/-- C6 (amended): reloading with the file content unchanged (its hash
equal to the cached checksum) returns the cached parse without re-parsing;
and a reload after the content hash has changed reflects the new content —
provided the time-based freshness window has elapsed (inside the window
the cache is served without consulting the hash). -/
theorem loadFile_checksum_cache {α β : Type} [DecidableEq β] (hash : String → β)
    (parse : String → Option α) (emptyFile : α) (cacheTtl now : ℚ) (raw : String)
    (st : CacheState α β) :
    (∀ c : α, st.cache = some c → st.checksum = some (hash raw) →
      (loadFile hash parse emptyFile cacheTtl now (some raw) st).data = c
      ∧ (loadFile hash parse emptyFile cacheTtl now (some raw) st).reparsed = false)
    ∧ (∀ d : α, cacheTtl ≤ now - st.timestamp → st.checksum ≠ some (hash raw) →
      parse raw = some d →
      loadFile hash parse emptyFile cacheTtl now (some raw) st
        = ⟨d, ⟨some d, some (hash raw), now⟩, true⟩) := by
  constructor
  · intro c hc hsum
    simp only [loadFile, hc]
    by_cases httl : now - st.timestamp < cacheTtl
    · rw [if_pos httl]
      exact ⟨rfl, rfl⟩
    · rw [if_neg httl]
      simp only [hsum, if_pos rfl]
      exact ⟨rfl, rfl⟩
  · intro d httl hsum hparse
    have hnotlt : ¬(now - st.timestamp < cacheTtl) := not_lt.mpr httl
    match hc : st.cache with
    | some c =>
      simp only [loadFile, hc, if_neg hnotlt]
      rw [if_neg (by simpa using hsum), hparse]
    | none =>
      simp only [loadFile, hc, hparse]

/-- C6 (witness): past the freshness window, an unchanged content hash is
a cache hit without re-parsing, and a changed hash is parsed fresh and
replaces the cache. -/
theorem loadFile_checksum_cache_witness :
    (loadFile (id : String → String) some "" 30000 50000 (some "c")
      ⟨some "v", some "c", 0⟩).data = "v"
    ∧ (loadFile (id : String → String) some "" 30000 50000 (some "c")
      ⟨some "v", some "c", 0⟩).reparsed = false
    ∧ loadFile (id : String → String) some "" 30000 50000 (some "n2")
      ⟨some "v", some "c", 0⟩
        = ⟨"n2", ⟨some "n2", some "n2", 50000⟩, true⟩ := by
  obtain ⟨h1, h2⟩ := (loadFile_checksum_cache (id : String → String) some "" 30000 50000 "c"
    ⟨some "v", some "c", 0⟩).1 "v" rfl rfl
  refine ⟨h1, h2, ?_⟩
  exact (loadFile_checksum_cache (id : String → String) some "" 30000 50000 "n2"
    ⟨some "v", some "c", 0⟩).2 "n2" (by norm_num) (by decide) rfl

/-- The result `_checkOutputRepetition` fires with. -/
def outRepResult : LoopResult :=
  ⟨true, some "output_repetition",
    some "The last 3 tool calls produced identical output. You may be stuck in a loop."⟩

/-- C7 (counterexample): the claim as stated is false: three consecutive
`recordAndCheck` calls with empty output (distinct tools, no file params,
default config) DO report type `output_repetition` on the third call,
because the DJB2 hash of the empty output is 5381, which is nonzero. -/
theorem outputRepetition_nonzero_hash_counterexample :
    ((recordAndCheck {} ((recordAndCheck {}
        ((recordAndCheck {} initialLoopState "a" "" {} 0).2) "b" "" {} 1).2)
        "c" "" {} 2).1).type = some "output_repetition"
    ∧ djb2Hash "" ≠ 0 := by
  constructor
  · rfl
  · decide

/-- C7 (amended): the output-repetition check fires exactly when the last
3 recorded calls share an identical nonzero output hash; it never fires on
fewer than 3 records; and the hash of empty output is 5381 — nonzero, so
empty output is NOT treated as non-signal. -/
theorem outputRepetition_nonzero_hash :
    (∀ (pre : List ToolRecord) (a b c : ToolRecord),
      checkOutputRepetition (pre ++ [a, b, c])
        = if b.hash = a.hash ∧ c.hash = a.hash ∧ a.hash ≠ 0 then some outRepResult else none)
    ∧ (∀ hist : List ToolRecord, hist.length < 3 → checkOutputRepetition hist = none)
    ∧ djb2Hash "" = 5381
    ∧ (5381 : ℤ) ≠ 0 := by
  refine ⟨?_, ?_, by decide, by decide⟩
  · intro pre a b c
    have hdrop : (pre ++ [a, b, c]).drop ((pre ++ [a, b, c]).length - 3) = [a, b, c] := by
      have hlen : (pre ++ [a, b, c]).length - 3 = pre.length := by
        simp
      rw [hlen, List.drop_left]
    simp only [checkOutputRepetition, hdrop]
    rw [if_neg (by simp)]
    simp only [List.all_cons, List.all_nil, Bool.and_true, Bool.and_eq_true,
      decide_eq_true_eq]
    split_ifs with h1 h2 h3 <;> first | rfl | (exfalso; tauto)
  · intro hist hlen
    have hrec : (hist.drop (hist.length - 3)).length < 3 := by
      rw [List.length_drop]
      omega
    simp only [checkOutputRepetition]
    rw [if_pos hrec]

/-- C7 (witness): the amended characterization applied to a concrete
3-entry history sharing the nonzero hash 7 (fires) and a 2-entry history
(cannot fire). -/
theorem outputRepetition_nonzero_hash_witness :
    checkOutputRepetition [⟨"a", 7, 0⟩, ⟨"b", 7, 1⟩, ⟨"c", 7, 2⟩] = some outRepResult
    ∧ checkOutputRepetition [⟨"a", 7, 0⟩, ⟨"b", 8, 1⟩] = none := by
  constructor
  · have h := outputRepetition_nonzero_hash.1 [] ⟨"a", 7, 0⟩ ⟨"b", 7, 1⟩ ⟨"c", 7, 2⟩
    simp only [List.nil_append] at h
    rw [h]
    norm_num
  · exact outputRepetition_nonzero_hash.2.1 [⟨"a", 7, 0⟩, ⟨"b", 8, 1⟩] (by decide)

/-- C8 (counterexample): the claim as stated is false: `canInvestigate` is
not pure.  With limits 3/hour, 20/day, state (3, 3, resets at 0 and 10⁹)
and `now = 10` past the hourly reset time, the call zeroes the hourly
counter (the state changes), and it returns `true` even though the
pre-call hourly count 3 is NOT under the hourly limit 3. -/
theorem canInvestigate_lazy_reset_counterexample :
    (canInvestigate ⟨3, 20⟩ 10 ⟨3, 3, 0, 1000000000⟩).2
      ≠ (⟨3, 3, 0, 1000000000⟩ : RateLimitState)
    ∧ (canInvestigate ⟨3, 20⟩ 10 ⟨3, 3, 0, 1000000000⟩).1 = true
    ∧ ¬((⟨3, 3, 0, 1000000000⟩ : RateLimitState).hourlyCount < 3) := by
  have hstate : (canInvestigate ⟨3, 20⟩ 10 ⟨3, 3, 0, 1000000000⟩).2
      = (⟨0, 3, 3600010, 1000000000⟩ : RateLimitState) := by
    show checkResets 10 ⟨3, 3, 0, 1000000000⟩ = _
    simp only [checkResets]
    norm_num
  have hres : (canInvestigate ⟨3, 20⟩ 10 ⟨3, 3, 0, 1000000000⟩).1 = true := by
    have hcr : checkResets 10 ⟨3, 3, 0, 1000000000⟩
        = (⟨0, 3, 3600010, 1000000000⟩ : RateLimitState) := by
      simp only [checkResets]
      norm_num
    show decide ((checkResets 10 ⟨3, 3, 0, 1000000000⟩).hourlyCount < 3
      ∧ (checkResets 10 ⟨3, 3, 0, 1000000000⟩).dailyCount < 20) = true
    rw [hcr]
    decide
  refine ⟨?_, hres, by decide⟩
  rw [hstate]
  intro hcontra
  have hfield := congrArg RateLimitState.hourlyCount hcontra
  simp at hfield

/-- C8 (amended): `canInvestigate` first applies the lazy window resets of
`_checkResets` (mutating the state whenever a reset time has passed), then
returns whether both post-reset counters are under their limits; it leaves
the state unchanged when `now` is before both reset times; `record`
additionally increments both counters. -/
theorem canInvestigate_lazy_reset (limits : RateLimits) (now : ℚ) (st : RateLimitState) :
    (canInvestigate limits now st).2 = checkResets now st
    ∧ (canInvestigate limits now st).1
        = decide ((checkResets now st).hourlyCount < limits.perHour
            ∧ (checkResets now st).dailyCount < limits.perDay)
    ∧ (now < st.hourlyResetTime → now < st.dailyResetTime →
        (canInvestigate limits now st).2 = st)
    ∧ recordInvestigation now st
        = { checkResets now st with
            hourlyCount := (checkResets now st).hourlyCount + 1,
            dailyCount := (checkResets now st).dailyCount + 1 } := by
  refine ⟨rfl, rfl, ?_, rfl⟩
  intro h1 h2
  show checkResets now st = st
  simp only [checkResets, if_neg (not_le.mpr h1)]
  simp only [if_neg (not_le.mpr h2)]

/-- C8 (witness): the amended theorem applied with `now` before both reset
times: the state is unchanged by the call. -/
theorem canInvestigate_lazy_reset_witness :
    (5:ℚ) < 10 ∧ (5:ℚ) < 20
    ∧ (canInvestigate ⟨3, 20⟩ 5 ⟨1, 2, 10, 20⟩).2 = (⟨1, 2, 10, 20⟩ : RateLimitState) := by
  refine ⟨by norm_num, by norm_num, ?_⟩
  exact (canInvestigate_lazy_reset ⟨3, 20⟩ 5 ⟨1, 2, 10, 20⟩).2.2.1 (by norm_num) (by norm_num)
